import Mathlib

/-!
Shallow embedding of `include/not_null.hpp` (bitwizeshift/not_null): a generic
wrapper `not_null<T>` around a pointer-like value that is never null, with the
two factory functions `check_not_null` / `assume_not_null`, the comparison
operator family, the address-resolution helper `detail::not_null_to_address`,
and the error-signalling function `detail::throw_null_pointer_error`.

Pointer-like values are modelled concretely: `Ptr` is a raw machine pointer
(null or a numeric address); `Wrap α` is a single smart-pointer layer whose
`operator->` yields the next level, so `Wrap Ptr` plays the role of an owning
handle such as `std::unique_ptr` and nested `Wrap`s model layered handles.
The capability contract of §3 of the header's documentation (equality with
the null sentinel, move semantics, arrow resolution) is expressed through the
type classes `NullablePointer`, `MovedFrom` and `ToAddress`.
-/

/-- Raw machine pointer: the null pointer or a numeric address. -/
inductive Ptr where
  | null : Ptr
  | addr (a : Nat) : Ptr
deriving DecidableEq, Repr

/-- Numeric view used for the built-in pointer ordering: null is the lowest
address (address zero on common platforms). -/
def Ptr.toNat : Ptr → Nat
  | .null => 0
  | .addr a => a + 1

/-- Built-in raw-pointer equality (`p == q` on `U*`). -/
def Ptr.beq (p q : Ptr) : Bool := decide (p = q)

/-- Built-in raw-pointer ordering (`p < q` on `U*`), by address. -/
def Ptr.blt (p q : Ptr) : Bool := decide (p.toNat < q.toNat)

/-- Memory snapshot: contents of every address, for modelling `operator*`. -/
def Mem : Type := Nat → Nat

/-- Dereferencing a raw pointer reads the pointee; dereferencing null has no
defined result. -/
def Ptr.deref (m : Mem) : Ptr → Option Nat
  | .null => none
  | .addr a => some (m a)

/-- Smart-pointer layer: a value whose `operator->()` returns the next
pointer-like level (for `Wrap Ptr`, directly the raw pointer, as for
`std::unique_ptr`). -/
structure Wrap (α : Type) where
  ptr : α
deriving DecidableEq, Repr

/-- Result of `operator->()` on a smart-pointer layer. -/
def Wrap.arrow (w : Wrap α) : α := w.ptr

/-- Capability contract: the wrapped type is equality-comparable with the
null sentinel and has a distinguished null value (`NullablePointer` in the
header's static assertions). `eqNull v` models `v == nullptr`. -/
class NullablePointer (α : Type) where
  null : α
  eqNull : α → Bool

instance : NullablePointer Ptr where
  null := Ptr.null
  eqNull p := Ptr.beq p Ptr.null

instance : NullablePointer (Wrap Ptr) where
  null := ⟨Ptr.null⟩
  eqNull w := Ptr.beq w.ptr Ptr.null

/-- Move-out semantics of the wrapped type: `movedFrom v` is the value a
moved-from object of type `α` is left holding. A trivially copyable raw
pointer is unchanged by a move; a standard owning handle is left null. -/
class MovedFrom (α : Type) where
  movedFrom : α → α

instance : MovedFrom Ptr where
  movedFrom p := p

instance : MovedFrom (Wrap Ptr) where
  movedFrom _ := ⟨Ptr.null⟩

/-- Resolution of a pointer-like value to a raw address, as computed by the
overload set `detail::not_null_to_address`: the raw-pointer overload is the
identity, and the generic overload recurses on `operator->()`. -/
class ToAddress (α : Type) where
  to_address : α → Ptr

/-- Base overload `not_null_to_address(U* p) { return p; }`. -/
instance instToAddressPtr : ToAddress Ptr where
  to_address p := p

/-- Recursive overload
`not_null_to_address(const Ptr& p) { return not_null_to_address(p.operator->()); }`. -/
instance instToAddressWrap [ToAddress α] : ToAddress (Wrap α) where
  to_address w := ToAddress.to_address w.arrow

/-- Wrapper type `not_null<T>`: holds exactly the one member `m_pointer`. -/
structure not_null (α : Type) where
  m_pointer : α
deriving DecidableEq, Repr

namespace not_null

/-- Observer `as_nullable() const &`: the held value, unconsumed. -/
def as_nullable (w : not_null α) : α := w.m_pointer

/-- Observer `as_nullable() &&`: moves the held value out, returning the
extracted value together with the spent wrapper (which now holds the
underlying type's moved-from state). -/
def as_nullable_rvalue [MovedFrom α] (w : not_null α) : α × not_null α :=
  (w.m_pointer, ⟨MovedFrom.movedFrom w.m_pointer⟩)

/-- Observer `get()`: resolves the held value to a raw address through
`detail::not_null_to_address`. -/
def get [ToAddress α] (w : not_null α) : Ptr := ToAddress.to_address w.m_pointer

/-- Observer `operator->()`: returns `get()`. -/
def opArrow [ToAddress α] (w : not_null α) : Ptr := w.get

/-- Observer `operator*()`: dereferences the raw address `get()` in the
given memory. -/
def opStar [ToAddress α] (m : Mem) (w : not_null α) : Option Nat :=
  Ptr.deref m w.get

/-- Observer `operator bool()`: always true. -/
def opBool (_ : not_null α) : Bool := true

/-- Copy constructor `not_null(const not_null&) = default`: copies the held
value verbatim. -/
def copy_construct (w : not_null α) : not_null α := ⟨w.m_pointer⟩

/-- Converting constructor `not_null(const not_null<U>& other)`:
initialises `m_pointer` from `other.as_nullable()` through `T`'s
constructor taking `const U&`, modelled by the conversion function `f`. -/
def convert_construct (f : α → β) (other : not_null α) : not_null β :=
  ⟨f other.as_nullable⟩

/-- Converting move constructor `not_null(not_null<U>&& other)`:
initialises `m_pointer` from the moved-out value and leaves the source
wrapper holding the moved-from state; returned as (new wrapper, spent
source). -/
def convert_move_construct [MovedFrom α] (f : α → β) (other : not_null α) :
    not_null β × not_null α :=
  (⟨f other.m_pointer⟩, ⟨MovedFrom.movedFrom other.m_pointer⟩)

/-- Move constructor `not_null(not_null&&) = default`: moves the held value,
leaving the source wrapper holding the moved-from state; returned as
(new wrapper, spent source). -/
def move_construct [MovedFrom α] (other : not_null α) : not_null α × not_null α :=
  (⟨other.m_pointer⟩, ⟨MovedFrom.movedFrom other.m_pointer⟩)

/-- Copy assignment `operator=(const not_null<U>&)`: assigns
`other.as_nullable()` to `m_pointer` (same-type form: `f` is the identity). -/
def copy_assign (f : α → β) (_dst : not_null β) (other : not_null α) : not_null β :=
  ⟨f other.as_nullable⟩

/-- Move assignment `operator=(not_null<U>&&)`: assigns the moved-out value
to `m_pointer` and leaves the source wrapper holding the moved-from state;
returned as (updated destination, spent source). -/
def move_assign [MovedFrom α] (f : α → β) (_dst : not_null β) (other : not_null α) :
    not_null β × not_null α :=
  (⟨f other.m_pointer⟩, ⟨MovedFrom.movedFrom other.m_pointer⟩)

end not_null

/-- Private factory `detail::not_null_factory::make`: constructs the wrapper
via the private tagged constructor, storing the forwarded value. -/
def not_null_factory_make (p : α) : not_null α := ⟨p⟩

/-- Factory `assume_not_null`: unchecked construction, forwards to the
private factory. -/
def assume_not_null (p : α) : not_null α := not_null_factory_make p

/-- Message of `not_null_contract_violation` and of the diagnostic printed in
the exceptions-disabled mode (identical strings in the header). -/
def contract_violation_message : String :=
  "check_not_null invoked with null pointer; not_null's contruct has been violated"

/-- Exception type `not_null_contract_violation : std::logic_error`, carrying
its `what()` message. -/
structure not_null_contract_violation where
  what : String
deriving DecidableEq, Repr

/-- Process-wide configuration: whether `NOT_NULL_DISABLE_EXCEPTIONS` is
defined (`exceptionsDisabled`) or not (`exceptionsEnabled`). -/
inductive ExceptionMode where
  | exceptionsEnabled
  | exceptionsDisabled
deriving DecidableEq, Repr

/-- Outcome of signalling the contract violation: a thrown, catchable
exception that unwinds, or an abnormal process termination (diagnostic
printed to stderr, then abort, no unwinding). -/
inductive ViolationSignal where
  | thrown (e : not_null_contract_violation)
  | aborted (diagnostic : String)
deriving DecidableEq, Repr

/-- Error signalling `detail::throw_null_pointer_error`: throws
`not_null_contract_violation` in the default mode; prints the diagnostic and
aborts in the exceptions-disabled mode. -/
def throw_null_pointer_error (mode : ExceptionMode) : ViolationSignal :=
  match mode with
  | .exceptionsEnabled => .thrown ⟨contract_violation_message⟩
  | .exceptionsDisabled => .aborted contract_violation_message

/-- Factory `check_not_null`: tests `ptr != nullptr`; on success forwards to
`assume_not_null`, otherwise signals the contract violation and produces no
wrapper. -/
def check_not_null [NullablePointer α] (mode : ExceptionMode) (p : α) :
    Except ViolationSignal (not_null α) :=
  if NullablePointer.eqNull p then
    .error (throw_null_pointer_error mode)
  else
    .ok (assume_not_null p)

/-- Invariant of the wrapper: the held value does not compare equal to the
null sentinel (`w.as_nullable() != null`). -/
def not_null_invariant [NullablePointer α] (w : not_null α) : Prop :=
  NullablePointer.eqNull w.as_nullable = false

/-- Underlying comparison capability used to gate the heterogeneous operator
family: the declarations participate in overload resolution only when the
corresponding expression on the unwrapped `const T&` / `const U&` is
well-formed, modelled by this class being inhabited. -/
class PtrComparable (α β : Type) where
  eq : α → β → Bool
  ne : α → β → Bool
  lt : α → β → Bool
  gt : α → β → Bool
  le : α → β → Bool
  ge : α → β → Bool

/-- Built-in raw-pointer comparisons between two `Ptr`s. -/
instance instPtrComparablePtr : PtrComparable Ptr Ptr where
  eq p q := Ptr.beq p q
  ne p q := !Ptr.beq p q
  lt p q := Ptr.blt p q
  gt p q := Ptr.blt q p
  le p q := !Ptr.blt q p
  ge p q := !Ptr.blt p q

/-- Operator `operator==(const not_null<T>&, std::nullptr_t)`: always false. -/
def nn_eq_null (_ : not_null α) : Bool := false

/-- Operator `operator==(std::nullptr_t, const not_null<T>&)`: always false. -/
def null_eq_nn (_ : not_null α) : Bool := false

/-- Operator `operator!=(const not_null<T>&, std::nullptr_t)`: always true. -/
def nn_ne_null (_ : not_null α) : Bool := true

/-- Operator `operator!=(std::nullptr_t, const not_null<T>&)`: always true. -/
def null_ne_nn (_ : not_null α) : Bool := true

/-- Operator `operator==(const not_null<T>&, const not_null<U>&)`. -/
def nn_eq [PtrComparable α β] (lhs : not_null α) (rhs : not_null β) : Bool :=
  PtrComparable.eq lhs.as_nullable rhs.as_nullable

/-- Operator `operator==(const not_null<T>&, const U&)`. -/
def nn_eq_raw [PtrComparable α β] (lhs : not_null α) (rhs : β) : Bool :=
  PtrComparable.eq lhs.as_nullable rhs

/-- Operator `operator==(const T&, const not_null<U>&)`. -/
def raw_eq_nn [PtrComparable α β] (lhs : α) (rhs : not_null β) : Bool :=
  PtrComparable.eq lhs rhs.as_nullable

/-- Operator `operator!=(const not_null<T>&, const not_null<U>&)`. -/
def nn_ne [PtrComparable α β] (lhs : not_null α) (rhs : not_null β) : Bool :=
  PtrComparable.ne lhs.as_nullable rhs.as_nullable

/-- Operator `operator!=(const not_null<T>&, const U&)`. -/
def nn_ne_raw [PtrComparable α β] (lhs : not_null α) (rhs : β) : Bool :=
  PtrComparable.ne lhs.as_nullable rhs

/-- Operator `operator!=(const T&, const not_null<U>&)`. -/
def raw_ne_nn [PtrComparable α β] (lhs : α) (rhs : not_null β) : Bool :=
  PtrComparable.ne lhs rhs.as_nullable

/-- Operator `operator<(const not_null<T>&, const not_null<U>&)`. -/
def nn_lt [PtrComparable α β] (lhs : not_null α) (rhs : not_null β) : Bool :=
  PtrComparable.lt lhs.as_nullable rhs.as_nullable

/-- Operator `operator<(const not_null<T>&, const U&)`. -/
def nn_lt_raw [PtrComparable α β] (lhs : not_null α) (rhs : β) : Bool :=
  PtrComparable.lt lhs.as_nullable rhs

/-- Operator `operator<(const T&, const not_null<U>&)`. -/
def raw_lt_nn [PtrComparable α β] (lhs : α) (rhs : not_null β) : Bool :=
  PtrComparable.lt lhs rhs.as_nullable

/-- Operator `operator>(const not_null<T>&, const not_null<U>&)`. -/
def nn_gt [PtrComparable α β] (lhs : not_null α) (rhs : not_null β) : Bool :=
  PtrComparable.gt lhs.as_nullable rhs.as_nullable

/-- Operator `operator>(const not_null<T>&, const U&)`. -/
def nn_gt_raw [PtrComparable α β] (lhs : not_null α) (rhs : β) : Bool :=
  PtrComparable.gt lhs.as_nullable rhs

/-- Operator `operator>(const T&, const not_null<U>&)`. -/
def raw_gt_nn [PtrComparable α β] (lhs : α) (rhs : not_null β) : Bool :=
  PtrComparable.gt lhs rhs.as_nullable

/-- Operator `operator<=(const not_null<T>&, const not_null<U>&)`. -/
def nn_le [PtrComparable α β] (lhs : not_null α) (rhs : not_null β) : Bool :=
  PtrComparable.le lhs.as_nullable rhs.as_nullable

/-- Operator `operator<=(const not_null<T>&, const U&)`. -/
def nn_le_raw [PtrComparable α β] (lhs : not_null α) (rhs : β) : Bool :=
  PtrComparable.le lhs.as_nullable rhs

/-- Operator `operator<=(const T&, const not_null<U>&)`. -/
def raw_le_nn [PtrComparable α β] (lhs : α) (rhs : not_null β) : Bool :=
  PtrComparable.le lhs rhs.as_nullable

/-- Operator `operator>=(const not_null<T>&, const not_null<U>&)`. -/
def nn_ge [PtrComparable α β] (lhs : not_null α) (rhs : not_null β) : Bool :=
  PtrComparable.ge lhs.as_nullable rhs.as_nullable

/-- Operator `operator>=(const not_null<T>&, const U&)`. -/
def nn_ge_raw [PtrComparable α β] (lhs : not_null α) (rhs : β) : Bool :=
  PtrComparable.ge lhs.as_nullable rhs

/-- Operator `operator>=(const T&, const not_null<U>&)`. -/
def raw_ge_nn [PtrComparable α β] (lhs : α) (rhs : not_null β) : Bool :=
  PtrComparable.ge lhs rhs.as_nullable

/-- Trait `detail::not_null_is_explicit_convertible<T,U>`:
`is_constructible<T,U> && !is_convertible<U,T>`, over the two compile-time
facts about the unwrapped types. -/
def not_null_is_explicit_convertible (constructible convertible : Bool) : Bool :=
  constructible && !convertible

/-- Trait `detail::not_null_is_implicit_convertible<T,U>`:
`is_constructible<T,U> && is_convertible<U,T>`. -/
def not_null_is_implicit_convertible (constructible convertible : Bool) : Bool :=
  constructible && convertible

/-- Pointer to an object of a derived class, for the upcast model. -/
structure DerivedPtr where
  toPtr : Ptr
deriving DecidableEq, Repr

/-- Pointer to an object of a base class of that derived class. -/
structure BasePtr where
  toPtr : Ptr
deriving DecidableEq, Repr

/-- Derived-to-base pointer upcast: the standard implicit conversion, which
maps null to null and a derived object's address to its base subobject's
address (same address under single inheritance). -/
def upcast (p : DerivedPtr) : BasePtr := ⟨p.toPtr⟩

/-- Mixed built-in comparison between a base pointer and a derived pointer:
the language upcasts the derived pointer to the common base type first, then
compares addresses. -/
instance instPtrComparableBaseDerived : PtrComparable BasePtr DerivedPtr where
  eq b d := Ptr.beq b.toPtr (upcast d).toPtr
  ne b d := !Ptr.beq b.toPtr (upcast d).toPtr
  lt b d := Ptr.blt b.toPtr (upcast d).toPtr
  gt b d := Ptr.blt (upcast d).toPtr b.toPtr
  le b d := !Ptr.blt (upcast d).toPtr b.toPtr
  ge b d := !Ptr.blt b.toPtr (upcast d).toPtr

/-- Chain of n smart-pointer layers over a raw pointer: `Leveled 0 = Ptr`,
`Leveled (n+1) = Wrap (Leveled n)`. -/
def Leveled : Nat → Type
  | 0 => Ptr
  | n + 1 => Wrap (Leveled n)

/-- Address resolution for an n-layer chain, built from the two
`not_null_to_address` overloads (base overload at layer 0, the recursive
overload at each further layer). -/
def instToAddressLeveled : (n : Nat) → ToAddress (Leveled n)
  | 0 => instToAddressPtr
  | n + 1 => @instToAddressWrap (Leveled n) (instToAddressLeveled n)

/-- Specification-side resolver: starting from an n-layer chain, apply the
value's own arrow step once per layer until a raw pointer is reached, and
return that raw pointer. Written from the spec's words, to be compared with
the overload-set computation `ToAddress.to_address`. -/
def resolve_by_repeated_arrow : (n : Nat) → Leveled n → Ptr
  | 0, p => p
  | n + 1, w => resolve_by_repeated_arrow n (Wrap.arrow w)

/-- Enumeration of the member operators declared by `not_null<T>`,
including the deleted arithmetic block. -/
inductive MemberOp where
  | preIncrement
  | preDecrement
  | postIncrement
  | postDecrement
  | plusAssign
  | minusAssign
  | index
  | getOp
  | asNullableOp
  | arrowOp
  | starOp
  | boolOp
deriving DecidableEq, Repr

/-- Status of a member operator in the class interface: usable, or declared
`= delete` so that every use is ill-formed (a compile-time error, never a
runtime check). -/
inductive OpStatus where
  | available
  | deleted
deriving DecidableEq, Repr

/-- Interface table transcribed from the class body: the increment,
decrement, compound-arithmetic and indexing operators are all `= delete`;
the observers are usable. -/
def member_op_status : MemberOp → OpStatus
  | .preIncrement => .deleted
  | .preDecrement => .deleted
  | .postIncrement => .deleted
  | .postDecrement => .deleted
  | .plusAssign => .deleted
  | .minusAssign => .deleted
  | .index => .deleted
  | .getOp => .available
  | .asNullableOp => .available
  | .arrowOp => .available
  | .starOp => .available
  | .boolOp => .available

/-- Helper: over an n-layer chain, the overload-set computation
`not_null_to_address` agrees with the spec-side repeated-arrow resolver. -/
theorem leveled_to_address_eq (n : Nat) (x : Leveled n) :
    @ToAddress.to_address (Leveled n) (instToAddressLeveled n) x =
      resolve_by_repeated_arrow n x := by
  induction n with
  | zero => rfl
  | succ n ih =>
    show @ToAddress.to_address (Leveled n) (instToAddressLeveled n) (Wrap.arrow x) =
      resolve_by_repeated_arrow n (Wrap.arrow x)
    exact ih (Wrap.arrow x)

/-- C1: Every successful construction path establishes the invariant
`w.as_nullable() != null`: `check_not_null` on a non-null value succeeds and
yields a wrapper satisfying the invariant (so does `assume_not_null`), and
copy construction, converting construction (through a null-preserving
underlying conversion, as every C++ pointer conversion is), copy assignment,
move construction, converting move construction and move assignment each
produce a destination wrapper satisfying the invariant whenever their source
wrapper does (the moved-to value is built from the source value before the
source is spent); so every operation of the type preserves the invariant of
a wrapper that has not yet been consumed by a move-out. -/
theorem C1_invariant_established_and_preserved
    {α β : Type} [NullablePointer α] [NullablePointer β] [MovedFrom α]
    (mode : ExceptionMode) (p : α) (w : not_null α) (dst : not_null β) (f : α → β)
    (hp : NullablePointer.eqNull p = false)
    (hw : not_null_invariant w)
    (hf : ∀ x : α, NullablePointer.eqNull x = false →
      NullablePointer.eqNull (f x) = false) :
    (check_not_null mode p = Except.ok (assume_not_null p) ∧
      not_null_invariant (assume_not_null p)) ∧
    not_null_invariant (not_null.copy_construct w) ∧
    not_null_invariant (not_null.convert_construct f w) ∧
    not_null_invariant (not_null.copy_assign f dst w) ∧
    not_null_invariant (not_null.move_construct w).1 ∧
    not_null_invariant (not_null.convert_move_construct f w).1 ∧
    not_null_invariant (not_null.move_assign f dst w).1 := by
  refine ⟨⟨?_, hp⟩, hw, hf _ hw, hf _ hw, hw, hf _ hw, hf _ hw⟩
  simp [check_not_null, hp]

/-- Witness for C1 at the raw pointer with address 1, a wrapper over
address 2, a destination over address 3, and the identity conversion. -/
theorem C1_witness :
    (check_not_null ExceptionMode.exceptionsEnabled (Ptr.addr 1) =
        Except.ok (assume_not_null (Ptr.addr 1)) ∧
      not_null_invariant (assume_not_null (Ptr.addr 1))) ∧
    not_null_invariant (not_null.copy_construct ⟨Ptr.addr 2⟩) ∧
    not_null_invariant (not_null.convert_construct id (⟨Ptr.addr 2⟩ : not_null Ptr)) ∧
    not_null_invariant (not_null.copy_assign id (⟨Ptr.addr 3⟩ : not_null Ptr) ⟨Ptr.addr 2⟩) ∧
    not_null_invariant (not_null.move_construct (⟨Ptr.addr 2⟩ : not_null Ptr)).1 ∧
    not_null_invariant (not_null.convert_move_construct id (⟨Ptr.addr 2⟩ : not_null Ptr)).1 ∧
    not_null_invariant
      (not_null.move_assign id (⟨Ptr.addr 3⟩ : not_null Ptr) ⟨Ptr.addr 2⟩).1 :=
  C1_invariant_established_and_preserved ExceptionMode.exceptionsEnabled
    (Ptr.addr 1) ⟨Ptr.addr 2⟩ ⟨Ptr.addr 3⟩ id
    (by decide) rfl (fun _ h => h)

/-- C2: For every non-null value v, `check_not_null` tests `v != null`,
succeeds (forwarding to the unchecked path), and the produced wrapper
unwraps back to v. -/
theorem C2_check_then_unwrap_identity
    {α : Type} [NullablePointer α] (mode : ExceptionMode) (v : α)
    (hv : NullablePointer.eqNull v = false) :
    check_not_null mode v = Except.ok (assume_not_null v) ∧
    (assume_not_null v).as_nullable = v ∧
    ∀ w : not_null α, check_not_null mode v = Except.ok w → w.as_nullable = v := by
  refine ⟨by simp [check_not_null, hv], rfl, ?_⟩
  intro w hw
  simp [check_not_null, hv] at hw
  rw [← hw]
  rfl

/-- Witness for C2 at the raw pointer with address 5. -/
theorem C2_witness :
    check_not_null ExceptionMode.exceptionsEnabled (Ptr.addr 5) =
        Except.ok (assume_not_null (Ptr.addr 5)) ∧
    (assume_not_null (Ptr.addr 5)).as_nullable = Ptr.addr 5 ∧
    ∀ w : not_null Ptr,
      check_not_null ExceptionMode.exceptionsEnabled (Ptr.addr 5) = Except.ok w →
        w.as_nullable = Ptr.addr 5 :=
  C2_check_then_unwrap_identity ExceptionMode.exceptionsEnabled (Ptr.addr 5) (by decide)

/-- C3: On a null value, `check_not_null` signals the contract violation and
produces no wrapper; in the default mode the signal is the catchable thrown
`not_null_contract_violation`, and in the exceptions-disabled mode it is an
abnormal termination after emitting the diagnostic message (no unwinding);
in neither mode is an `ok` wrapper produced. -/
theorem C3_check_null_failure
    {α : Type} [NullablePointer α] (mode : ExceptionMode) (p : α)
    (hp : NullablePointer.eqNull p = true) :
    check_not_null mode p = Except.error (throw_null_pointer_error mode) ∧
    (∀ w : not_null α, check_not_null mode p ≠ Except.ok w) ∧
    throw_null_pointer_error ExceptionMode.exceptionsEnabled =
      ViolationSignal.thrown ⟨contract_violation_message⟩ ∧
    throw_null_pointer_error ExceptionMode.exceptionsDisabled =
      ViolationSignal.aborted contract_violation_message := by
  refine ⟨by simp [check_not_null, hp], ?_, rfl, rfl⟩
  intro w hw
  simp [check_not_null, hp] at hw

/-- Witness for C3 at the null raw pointer in both modes. -/
theorem C3_witness :
    (check_not_null ExceptionMode.exceptionsEnabled (Ptr.null) =
        Except.error (throw_null_pointer_error ExceptionMode.exceptionsEnabled) ∧
      (∀ w : not_null Ptr,
        check_not_null ExceptionMode.exceptionsEnabled (Ptr.null) ≠ Except.ok w) ∧
      throw_null_pointer_error ExceptionMode.exceptionsEnabled =
        ViolationSignal.thrown ⟨contract_violation_message⟩ ∧
      throw_null_pointer_error ExceptionMode.exceptionsDisabled =
        ViolationSignal.aborted contract_violation_message) ∧
    check_not_null ExceptionMode.exceptionsDisabled (Ptr.null) =
      Except.error (throw_null_pointer_error ExceptionMode.exceptionsDisabled) :=
  ⟨C3_check_null_failure ExceptionMode.exceptionsEnabled Ptr.null (by decide),
   (C3_check_null_failure ExceptionMode.exceptionsDisabled Ptr.null (by decide)).1⟩

/-- C4: For every non-null value v, `assume_not_null` is a pure pass-through:
it builds the wrapper through the private factory with no check and no side
effect, and the wrapper unwraps back to v. -/
theorem C4_assume_pass_through
    {α : Type} [NullablePointer α] (v : α)
    (_hv : NullablePointer.eqNull v = false) :
    assume_not_null v = not_null_factory_make v ∧
    (assume_not_null v).as_nullable = v :=
  ⟨rfl, rfl⟩

/-- Witness for C4 at the raw pointer with address 7. -/
theorem C4_witness :
    assume_not_null (Ptr.addr 7) = not_null_factory_make (Ptr.addr 7) ∧
    (assume_not_null (Ptr.addr 7)).as_nullable = Ptr.addr 7 :=
  C4_assume_pass_through (Ptr.addr 7) (by decide)

/-- C5: For every wrapper, over any wrapped type and any held value, the
comparisons against the null sentinel are the constants false (for equality,
in both argument orders) and true (for inequality, in both orders), computed
without inspecting the held value. -/
theorem C5_null_comparison_constant :
    ∀ (α : Type) (w : not_null α),
      nn_eq_null w = false ∧ null_eq_nn w = false ∧
      nn_ne_null w = true ∧ null_ne_nn w = true :=
  fun _ _ => ⟨rfl, rfl, rfl, rfl⟩

/-- C6: Every comparison between two wrappers delegates to the underlying
raw-pointer operator applied to the unwrapped values: equality holds iff the
underlying values are equal, ordering holds iff the underlying addresses are
ordered, and each mixed form (wrapper versus raw value, in either order)
computes exactly what the wrapper-wrapper form computes. -/
theorem C6_comparison_forwarding :
    ∀ a b : not_null Ptr,
      (nn_eq a b = true ↔ a.as_nullable = b.as_nullable) ∧
      (nn_ne a b = true ↔ a.as_nullable ≠ b.as_nullable) ∧
      (nn_lt a b = true ↔ a.as_nullable.toNat < b.as_nullable.toNat) ∧
      (nn_gt a b = true ↔ b.as_nullable.toNat < a.as_nullable.toNat) ∧
      (nn_le a b = true ↔ a.as_nullable.toNat ≤ b.as_nullable.toNat) ∧
      (nn_ge a b = true ↔ b.as_nullable.toNat ≤ a.as_nullable.toNat) ∧
      (nn_eq a b = Ptr.beq a.as_nullable b.as_nullable ∧
        nn_lt a b = Ptr.blt a.as_nullable b.as_nullable) ∧
      (nn_eq_raw a b.as_nullable = nn_eq a b ∧ raw_eq_nn a.as_nullable b = nn_eq a b) ∧
      (nn_ne_raw a b.as_nullable = nn_ne a b ∧ raw_ne_nn a.as_nullable b = nn_ne a b) ∧
      (nn_lt_raw a b.as_nullable = nn_lt a b ∧ raw_lt_nn a.as_nullable b = nn_lt a b) ∧
      (nn_gt_raw a b.as_nullable = nn_gt a b ∧ raw_gt_nn a.as_nullable b = nn_gt a b) ∧
      (nn_le_raw a b.as_nullable = nn_le a b ∧ raw_le_nn a.as_nullable b = nn_le a b) ∧
      (nn_ge_raw a b.as_nullable = nn_ge a b ∧ raw_ge_nn a.as_nullable b = nn_ge a b) := by
  intro a b
  refine ⟨?_, ?_, ?_, ?_, ?_, ?_, ⟨rfl, rfl⟩, ⟨rfl, rfl⟩, ⟨rfl, rfl⟩,
    ⟨rfl, rfl⟩, ⟨rfl, rfl⟩, ⟨rfl, rfl⟩, ⟨rfl, rfl⟩⟩
  · simp [nn_eq, instPtrComparablePtr, Ptr.beq, not_null.as_nullable]
  · simp [nn_ne, instPtrComparablePtr, Ptr.beq, not_null.as_nullable]
  · simp [nn_lt, instPtrComparablePtr, Ptr.blt, not_null.as_nullable]
  · simp [nn_gt, instPtrComparablePtr, Ptr.blt, not_null.as_nullable]
  · simp [nn_le, instPtrComparablePtr, Ptr.blt, not_null.as_nullable, Nat.not_lt]
  · simp [nn_ge, instPtrComparablePtr, Ptr.blt, not_null.as_nullable, Nat.not_lt]

/-- C7: Over any chain of smart-pointer layers, `get()` returns the raw
address computed by applying the held value's own arrow step once per layer
until the raw pointer at the bottom is reached; on a wrapper over a raw
pointer it is the identity; `operator->` returns the same raw address as
`get()`; and `operator*` returns the pointee stored at that address. All are
pure total functions of the wrapper (and, for `operator*`, the memory). -/
theorem C7_get_resolution :
    ∀ (n : Nat) (w : not_null (Leveled n)) (w0 : not_null Ptr) (m : Mem),
      @not_null.get (Leveled n) (instToAddressLeveled n) w =
        resolve_by_repeated_arrow n w.as_nullable ∧
      w0.get = w0.as_nullable ∧
      @not_null.opArrow (Leveled n) (instToAddressLeveled n) w =
        @not_null.get (Leveled n) (instToAddressLeveled n) w ∧
      @not_null.opStar (Leveled n) (instToAddressLeveled n) m w =
        Ptr.deref m (@not_null.get (Leveled n) (instToAddressLeveled n) w) := by
  intro n w w0 m
  exact ⟨leveled_to_address_eq n w.m_pointer, rfl, rfl, rfl⟩

/-- C8: Converting a wrapper over a derived-class pointer to a wrapper over a
base-class pointer applies the underlying upcast to the held value, so the
resulting wrapper's unwrapped value compares equal to the original pointer
under the mixed base/derived comparison; and the participation gates
transcribed from the header make the constructor pair participate exactly
when the target type is constructible from the source (the implicit overload
exactly when the unwrapped conversion is also implicit, the explicit overload
otherwise, and neither when not constructible). -/
theorem C8_upcast_identity_and_gating :
    ∀ (w : not_null DerivedPtr) (c v : Bool),
      nn_eq_raw (not_null.convert_construct upcast w) w.as_nullable = true ∧
      (not_null.convert_construct upcast w).as_nullable = upcast w.as_nullable ∧
      not_null_is_implicit_convertible true v = v ∧
      not_null_is_explicit_convertible true v = !v ∧
      not_null_is_implicit_convertible false v = false ∧
      not_null_is_explicit_convertible false v = false ∧
      (not_null_is_implicit_convertible c v || not_null_is_explicit_convertible c v) = c := by
  intro w c v
  refine ⟨?_, rfl, rfl, rfl, rfl, rfl, ?_⟩
  · simp [nn_eq_raw, instPtrComparableBaseDerived, not_null.convert_construct,
      not_null.as_nullable, Ptr.beq]
  · cases c <;> cases v <;> rfl

/-- C9: The increment, decrement, compound-arithmetic and indexing operators
are all declared deleted in the class interface, so every attempted use is
ill-formed and rejected at compile time (a deleted member never reaches a
runtime check). -/
theorem C9_arithmetic_operators_deleted :
    member_op_status MemberOp.preIncrement = OpStatus.deleted ∧
    member_op_status MemberOp.preDecrement = OpStatus.deleted ∧
    member_op_status MemberOp.postIncrement = OpStatus.deleted ∧
    member_op_status MemberOp.postDecrement = OpStatus.deleted ∧
    member_op_status MemberOp.plusAssign = OpStatus.deleted ∧
    member_op_status MemberOp.minusAssign = OpStatus.deleted ∧
    member_op_status MemberOp.index = OpStatus.deleted :=
  ⟨rfl, rfl, rfl, rfl, rfl, rfl, rfl⟩

/-- C10: Moving from a wrapper over an owning handle — by move construction,
converting move construction, move assignment, or the consuming rvalue
`as_nullable()` — transfers the held value to the destination and leaves the
source wrapper holding the handle's moved-from state, which is null; the
spent source wrapper therefore no longer satisfies the non-null invariant,
so the invariant can be broken by being moved from in construction or
assignment, not only by the consuming rvalue `as_nullable()`. -/
theorem C10_move_from_leaves_source_null :
    ∀ w dst : not_null (Wrap Ptr),
      (not_null.move_construct w).1.as_nullable = w.as_nullable ∧
      (not_null.move_construct w).2.as_nullable = Wrap.mk Ptr.null ∧
      ¬ not_null_invariant (not_null.move_construct w).2 ∧
      (not_null.convert_move_construct id w).1.as_nullable = w.as_nullable ∧
      ¬ not_null_invariant (not_null.convert_move_construct id w).2 ∧
      (not_null.move_assign id dst w).1.as_nullable = w.as_nullable ∧
      (not_null.move_assign id dst w).2.as_nullable = Wrap.mk Ptr.null ∧
      ¬ not_null_invariant (not_null.move_assign id dst w).2 ∧
      (not_null.as_nullable_rvalue w).1 = w.as_nullable ∧
      ¬ not_null_invariant (not_null.as_nullable_rvalue w).2 := by
  intro w dst
  refine ⟨rfl, rfl, ?_, rfl, ?_, rfl, rfl, ?_, rfl, ?_⟩ <;>
    exact fun h => Bool.noConfusion h
